import Mathlib

/-!
Shallow embedding of the orderbook snapshot capture program (src/main.rs):
a loop that paces itself, fetches the order book and the last price of one
trading pair concurrently, and persists a combined record per iteration.
External effects (network, filesystem, clocks) are modelled as explicit
environment inputs; the program logic is translated function by function.
-/

namespace Binance

/-- JSON document model corresponding to serde_json values: the bodies of
API responses and persisted snapshot files. Numbers are modelled as
integers, which covers every numeric field the program reads or writes
(u64 ids and timestamps). Objects are ordered field lists. -/
inductive Json where
  | null : Json
  | bool (b : Bool) : Json
  | num (n : Int) : Json
  | str (s : String) : Json
  | arr (elems : List Json) : Json
  | obj (fields : List (String × Json)) : Json

/-- Field lookup following serde_json value indexing (`value["key"]`):
indexing a non-object, or an object without the key, yields null. -/
def Json.getField : Json → String → Json
  | .obj fields, k =>
    match fields.find? (fun f => f.1 == k) with
    | some f => f.2
    | none => .null
  | _, _ => .null

/-- String extraction following Value::as_str: some for a JSON string,
none for every other kind of value. -/
def Json.asStr : Json → Option String
  | .str s => some s
  | _ => none

/-- u64 extraction as serde deserializes it: a JSON integer in range,
anything else (or out of range) is a deserialization failure. -/
def Json.asU64 : Json → Option Nat
  | .num n => if 0 ≤ n ∧ n < 2 ^ 64 then some n.toNat else none
  | _ => none

/-- OrderBook struct from src/main.rs. A depth level ([String; 2] in the
source) is a (price, quantity) pair of decimal strings. -/
structure OrderBook where
  lastUpdateId : Nat
  bids : List (String × String)
  asks : List (String × String)
  deriving DecidableEq, Repr

/-- PriceData struct from src/main.rs: price string plus the local capture
timestamp in epoch milliseconds. -/
structure PriceData where
  price : String
  timestamp : Nat
  deriving DecidableEq, Repr

/-- CombinedData struct from src/main.rs: the persisted snapshot record. -/
structure CombinedData where
  lastUpdateId : Nat
  bids : List (String × String)
  asks : List (String × String)
  current_price : PriceData
  local_timestamp : Nat
  local_datetime : String
  deriving DecidableEq, Repr

/-- Configuration constant SYMBOL. -/
def SYMBOL : String := "SUIUSDT"

/-- Configuration constant OUTPUT_DIR. -/
def OUTPUT_DIR : String := "./orderbook_snapshots"

/-- Configuration constant DEPTH_LIMIT. -/
def DEPTH_LIMIT : Nat := 100

/-- Configuration constant UPDATE_INTERVAL, seconds (100 ms). Durations are
modelled as rationals. -/
def UPDATE_INTERVAL : ℚ := 1 / 10

/-- Configuration constant MIN_INTERVAL_BETWEEN_SNAPSHOTS, seconds (100 ms). -/
def MIN_INTERVAL_BETWEEN_SNAPSHOTS : ℚ := 1 / 10

/-- Outcome of one HTTP GET: either the transport layer failed (connection,
DNS, timeout — the early return on send), or a response arrived with a
status code and a body. The body field is the outcome of reading and
JSON-parsing the response body (response.json in the source): an error
string for a transport failure mid-body or malformed JSON, otherwise the
parsed document. -/
inductive HttpResult where
  | transportErr (msg : String) : HttpResult
  | response (status : Nat) (body : Except String Json) : HttpResult

/-- StatusCode::is_success from the http crate: status in 200..=299. -/
def statusIsSuccess (status : Nat) : Bool :=
  200 ≤ status && status < 300

/-- Rendering of the status code inside an error message. The Display of a
status code shows its decimal code (followed by a canonical reason phrase,
which the embedding elides); the claims concern the code part. -/
def statusDisplay (status : Nat) : String :=
  Nat.repr status

/-- get_current_price from src/main.rs. The request URL carries the symbol;
the environment supplies the response for it. nowMillis models the
SystemTime::now reading taken after a successful price extraction. -/
def get_current_price (r : HttpResult) (nowMillis : Nat) : Except String PriceData :=
  match r with
  | .transportErr msg => .error msg
  | .response status body =>
    if !statusIsSuccess status then
      .error ("API Error getting price: " ++ statusDisplay status)
    else
      match body with
      | .error e => .error e
      | .ok priceJson =>
        match (priceJson.getField "price").asStr with
        | none => .error "Failed to extract price"
        | some price => .ok { price := price, timestamp := nowMillis }

/-- Deserialization of one depth level, serde [String; 2]: a JSON array of
exactly two strings. -/
def levelFromJson : Json → Option (String × String)
  | .arr [.str p, .str q] => some (p, q)
  | _ => none

/-- Sequential deserialization of the elements of a level array: the
first malformed element fails the whole array, order preserved. -/
def levelListFromJson : List Json → Option (List (String × String))
  | [] => some []
  | j :: js => do
    let l ← levelFromJson j
    let ls ← levelListFromJson js
    pure (l :: ls)

/-- Deserialization of Vec<[String; 2]>: a JSON array with every element a
valid level, order preserved. -/
def levelsFromJson : Json → Option (List (String × String))
  | .arr elems => levelListFromJson elems
  | _ => none

/-- Derived serde Deserialize for OrderBook: a JSON object providing the
three declared fields with the right shapes; unknown fields are ignored. -/
def orderBookFromJson (j : Json) : Option OrderBook :=
  match j with
  | .obj _ => do
    let id ← (j.getField "lastUpdateId").asU64
    let bids ← levelsFromJson (j.getField "bids")
    let asks ← levelsFromJson (j.getField "asks")
    pure { lastUpdateId := id, bids := bids, asks := asks }
  | _ => none

/-- get_orderbook_snapshot from src/main.rs. -/
def get_orderbook_snapshot (r : HttpResult) : Except String OrderBook :=
  match r with
  | .transportErr msg => .error msg
  | .response status body =>
    if !statusIsSuccess status then
      .error ("API Error getting orderbook: " ++ statusDisplay status)
    else
      match body with
      | .error e => .error e
      | .ok j =>
        match orderBookFromJson j with
        | some ob => .ok ob
        | none => .error "error decoding response body"

/-- Local calendar datetime at second resolution: the value Local::now()
is formatted from in save_snapshot. -/
structure LocalDateTime where
  year : Nat
  month : Nat
  day : Nat
  hour : Nat
  minute : Nat
  second : Nat
  deriving DecidableEq, Repr

/-- Ranges of a real calendar datetime (the chrono clock only produces
these); %Y pads the year to four digits, so years stay below 10000. -/
def LocalDateTime.Valid (t : LocalDateTime) : Prop :=
  t.year < 10000 ∧ 1 ≤ t.month ∧ t.month ≤ 12 ∧ 1 ≤ t.day ∧ t.day ≤ 31 ∧
    t.hour < 24 ∧ t.minute < 60 ∧ t.second < 60

instance (t : LocalDateTime) : Decidable t.Valid := by
  unfold LocalDateTime.Valid
  infer_instance

/-- Two-digit zero-padded decimal: chrono %m, %d, %H, %M, %S. -/
def pad2 (n : Nat) : List Char :=
  [Nat.digitChar (n / 10 % 10), Nat.digitChar (n % 10)]

/-- Four-digit zero-padded decimal: chrono %Y for years 0..9999. -/
def pad4 (n : Nat) : List Char :=
  [Nat.digitChar (n / 1000 % 10), Nat.digitChar (n / 100 % 10),
    Nat.digitChar (n / 10 % 10), Nat.digitChar (n % 10)]

/-- Characters of now.format("%Y%m%d_%H%M%S"). -/
def timestampChars (t : LocalDateTime) : List Char :=
  pad4 t.year ++ pad2 t.month ++ pad2 t.day ++ ['_'] ++
    pad2 t.hour ++ pad2 t.minute ++ pad2 t.second

/-- timestamp_str in save_snapshot: now.format("%Y%m%d_%H%M%S"). -/
def timestamp_str (t : LocalDateTime) : String :=
  String.mk (timestampChars t)

/-- Characters of now.format("%Y-%m-%d %H:%M:%S"). -/
def datetimeChars (t : LocalDateTime) : List Char :=
  pad4 t.year ++ ['-'] ++ pad2 t.month ++ ['-'] ++ pad2 t.day ++ [' '] ++
    pad2 t.hour ++ [':'] ++ pad2 t.minute ++ [':'] ++ pad2 t.second

/-- datetime_str in save_snapshot: now.format("%Y-%m-%d %H:%M:%S"), the
local_datetime field of the record. -/
def datetime_str (t : LocalDateTime) : String :=
  String.mk (datetimeChars t)

/-- Snapshot filename: format OUTPUT_DIR/orderbook_SYMBOL_TIMESTAMP.json. -/
def snapshotFilename (symbol : String) (t : LocalDateTime) : String :=
  OUTPUT_DIR ++ "/orderbook_" ++ symbol ++ "_" ++ timestamp_str t ++ ".json"

/-- Filesystem behaviour visible to one save_snapshot call: whether the
output directory already exists, whether create_dir_all succeeds when
invoked, and whether fs::write succeeds. -/
structure FsEnv where
  dirExists : Bool
  createDirOk : Bool
  writeOk : Bool
  deriving DecidableEq, Repr

/-- Construction of the combined record inside save_snapshot: a field-level
copy of the order book and the price sample plus the local capture time. -/
def buildCombinedData (ob : OrderBook) (pd : PriceData) (epochSecs : Nat)
    (t : LocalDateTime) : CombinedData :=
  { lastUpdateId := ob.lastUpdateId
    bids := ob.bids
    asks := ob.asks
    current_price := { price := pd.price, timestamp := pd.timestamp }
    local_timestamp := epochSecs
    local_datetime := datetime_str t }

/-- save_snapshot from src/main.rs. t is the Local::now() reading,
epochSecs the SystemTime::now() epoch-seconds reading, fs the filesystem
behaviour. Returns the function result (filename on success) paired with
the list of complete records written to disk by this call. -/
def save_snapshot (ob : OrderBook) (pd : PriceData) (symbol : String)
    (t : LocalDateTime) (epochSecs : Nat) (fs : FsEnv) :
    Except String String × List (String × CombinedData) :=
  if !fs.dirExists && !fs.createDirOk then
    (.error "failed to create output directory", [])
  else
    let filename := snapshotFilename symbol t
    let combined := buildCombinedData ob pd epochSecs t
    if fs.writeOk then
      (.ok filename, [(filename, combined)])
    else
      (.error "failed to write snapshot file", [])

/-- Serialization of one depth level. -/
def levelToJson (l : String × String) : Json :=
  .arr [.str l.1, .str l.2]

/-- Serialization of Vec<[String; 2]>, order preserved. -/
def levelsToJson (ls : List (String × String)) : Json :=
  .arr (ls.map levelToJson)

/-- Derived serde Serialize for CombinedData: one JSON object, fields in
declaration order, serde_json::to_string_pretty writes this document. -/
def combinedToJson (c : CombinedData) : Json :=
  .obj [("lastUpdateId", .num (c.lastUpdateId : Int)),
    ("bids", levelsToJson c.bids),
    ("asks", levelsToJson c.asks),
    ("current_price", .obj [("price", .str c.current_price.price),
      ("timestamp", .num (c.current_price.timestamp : Int))]),
    ("local_timestamp", .num (c.local_timestamp : Int)),
    ("local_datetime", .str c.local_datetime)]

/-- Derived serde Deserialize for PriceData. -/
def priceDataFromJson (j : Json) : Option PriceData :=
  match j with
  | .obj _ => do
    let p ← (j.getField "price").asStr
    let ts ← (j.getField "timestamp").asU64
    pure { price := p, timestamp := ts }
  | _ => none

/-- Derived serde Deserialize for CombinedData. -/
def combinedFromJson (j : Json) : Option CombinedData :=
  match j with
  | .obj _ => do
    let id ← (j.getField "lastUpdateId").asU64
    let bids ← levelsFromJson (j.getField "bids")
    let asks ← levelsFromJson (j.getField "asks")
    let cp ← priceDataFromJson (j.getField "current_price")
    let ts ← (j.getField "local_timestamp").asU64
    let dt ← (j.getField "local_datetime").asStr
    pure ⟨id, bids, asks, cp, ts, dt⟩
  | _ => none

/-- Well-formedness of a record as the Rust types enforce it: the u64
fields are in range. -/
def CombinedData.WF (c : CombinedData) : Prop :=
  c.lastUpdateId < 2 ^ 64 ∧ c.current_price.timestamp < 2 ^ 64 ∧
    c.local_timestamp < 2 ^ 64

instance (c : CombinedData) : Decidable c.WF := by
  unfold CombinedData.WF
  infer_instance

/-- Observable events of one loop iteration, in program order. -/
inductive Event where
  | minIntervalSleep (d : ℚ) : Event
  | recordSnapshotTime : Event
  | fetchOrderbookIssued : Event
  | fetchPriceIssued : Event
  | snapshotSaved (filename : String) : Event
  | logSaveError (msg : String) : Event
  | logOrderbookError (msg : String) : Event
  | logPriceError (msg : String) : Event
  | endSleep (d : ℚ) : Event
  | slowIterationReport (elapsed : ℚ) : Event
  | processExit : Event
  deriving DecidableEq, Repr

/-- Environment behaviour for one loop iteration: everything the outside
world decides (network responses, clock readings, filesystem outcomes). -/
structure IterEnv where
  depthResponse : HttpResult
  priceResponse : HttpResult
  priceNowMillis : Nat
  localNow : LocalDateTime
  epochSecs : Nat
  fs : FsEnv
  timeSinceLastSnapshot : ℚ
  iterationElapsed : ℚ

/-- The join in main: both fetch legs are issued together and both
outcomes are collected; each leg's outcome is computed from that leg's own
response (and, for the price leg, the process clock) alone. -/
def fetchBoth (env : IterEnv) : Except String OrderBook × Except String PriceData :=
  (get_orderbook_snapshot env.depthResponse,
    get_current_price env.priceResponse env.priceNowMillis)

/-- Match on the pair of fetch outcomes in main: save only when both legs
succeeded; an orderbook failure is logged (covering both failure shapes of
that pair position) and a price failure is logged when only that leg
failed. No arm exits the process. -/
def handleResults (obr : Except String OrderBook) (pr : Except String PriceData)
    (t : LocalDateTime) (epochSecs : Nat) (fs : FsEnv) : List Event :=
  match obr, pr with
  | .ok ob, .ok pd =>
    match save_snapshot ob pd SYMBOL t epochSecs fs with
    | (.ok filename, _) => [.snapshotSaved filename]
    | (.error e, _) => [.logSaveError e]
  | .error e, _ => [.logOrderbookError e]
  | .ok _, .error e => [.logPriceError e]

/-- Records written to disk in one iteration: only the both-legs-ok branch
reaches save_snapshot; every other branch writes nothing. -/
def iterationWrites (obr : Except String OrderBook) (pr : Except String PriceData)
    (t : LocalDateTime) (epochSecs : Nat) (fs : FsEnv) : List (String × CombinedData) :=
  match obr, pr with
  | .ok ob, .ok pd => (save_snapshot ob pd SYMBOL t epochSecs fs).2
  | _, _ => []

/-- End-of-iteration pacing in main: sleep off a deficit against
UPDATE_INTERVAL, or report the slow iteration and sleep nothing. -/
def endPacingEvents (env : IterEnv) : List Event :=
  if env.iterationElapsed < UPDATE_INTERVAL then
    [.endSleep (UPDATE_INTERVAL - env.iterationElapsed)]
  else
    [.slowIterationReport env.iterationElapsed]

/-- Events of an iteration after the fetches are issued: the match on the
two outcomes, then the end-of-iteration pacing. -/
def postFetchEvents (env : IterEnv) : List Event :=
  handleResults (fetchBoth env).1 (fetchBoth env).2
    env.localNow env.epochSecs env.fs ++ endPacingEvents env

/-- Events of one loop iteration in program order: the minimum-spacing
check and optional sleep, the update of last_snapshot_time, the join that
issues both fetches, the match on the results, and the end-of-iteration
pacing (sleep the deficit, or report a slow iteration). -/
def iterationTrace (env : IterEnv) : List Event :=
  (if env.timeSinceLastSnapshot < MIN_INTERVAL_BETWEEN_SNAPSHOTS then
    [.minIntervalSleep (MIN_INTERVAL_BETWEEN_SNAPSHOTS - env.timeSinceLastSnapshot)]
  else []) ++
  ([.recordSnapshotTime, .fetchOrderbookIssued, .fetchPriceIssued] ++
    postFetchEvents env)

/-- The infinite main loop: the body has no break, return or exit path, so
iteration n exists for every n and every environment behaviour. -/
def loopTrace (envs : Nat → IterEnv) (n : Nat) : List Event :=
  iterationTrace (envs n)

/-- Day count of a civil date (days since 0000-03-01, standard
era/year-of-era computation); used only to read a datetime as an instant. -/
def daysFromCivil (y m d : Nat) : Nat :=
  let yy := if m ≤ 2 then y - 1 else y
  let era := yy / 400
  let yoe := yy % 400
  let mp := (m + 9) % 12
  let doy := (153 * mp + 2) / 5 + d - 1
  let doe := yoe * 365 + yoe / 4 - yoe / 100 + doy
  era * 146097 + doe

/-- Seconds-since-epoch reading of a local datetime at second resolution. -/
def LocalDateTime.toSeconds (t : LocalDateTime) : Nat :=
  daysFromCivil t.year t.month t.day * 86400 +
    t.hour * 3600 + t.minute * 60 + t.second

/-- Example order book used to exercise theorems on concrete data. -/
def obExample : OrderBook :=
  ⟨100, [("8.50", "120.0")], [("8.55", "80.0")]⟩

/-- Example price sample. -/
def pdExample : PriceData :=
  ⟨"8.52", 1700000000000⟩

/-- Example local datetime. -/
def tExample : LocalDateTime :=
  ⟨2024, 1, 2, 3, 4, 5⟩

/-- Example filesystem behaviour where every operation succeeds. -/
def fsExample : FsEnv :=
  ⟨true, true, true⟩

/-- Example depth response body. -/
def depthBodyExample : Json :=
  .obj [("lastUpdateId", .num 100),
    ("bids", .arr [.arr [.str "8.50", .str "120.0"]]),
    ("asks", .arr [.arr [.str "8.55", .str "80.0"]])]

/-- Example ticker response body. -/
def priceBodyExample : Json :=
  .obj [("symbol", .str "SUIUSDT"), ("price", .str "8.52")]

/-- Example iteration environment where everything succeeds. -/
def envExample : IterEnv :=
  ⟨.response 200 (.ok depthBodyExample), .response 200 (.ok priceBodyExample),
    1700000000000, tExample, 1700000000, fsExample, 1 / 20, 1 / 20⟩

/-- Example iteration environment agreeing with envExample on the depth
leg and the price leg inputs but differing elsewhere. -/
def envExample2 : IterEnv :=
  { envExample with epochSecs := 1700000100, timeSinceLastSnapshot := 3, iterationElapsed := 3 }

/-- C1: a snapshot record is written only when both the order-book fetch
and the price fetch succeed: when either leg fails the iteration writes
nothing at all (never a partial record), and each leg's outcome is a
function of its own response (plus, for the price leg, the clock) alone,
so one leg's failure cannot influence the other's outcome. -/
theorem write_requires_both_legs
    (obr : Except String OrderBook) (pr : Except String PriceData)
    (e : String) (t : LocalDateTime) (es : Nat) (fs : FsEnv)
    (env env' : IterEnv) :
    iterationWrites (.error e) pr t es fs = [] ∧
    iterationWrites obr (.error e) t es fs = [] ∧
    (iterationWrites obr pr t es fs ≠ [] →
      (∃ ob, obr = .ok ob) ∧ (∃ pd, pr = .ok pd)) ∧
    (env.depthResponse = env'.depthResponse →
      (fetchBoth env).1 = (fetchBoth env').1) ∧
    (env.priceResponse = env'.priceResponse →
      env.priceNowMillis = env'.priceNowMillis →
      (fetchBoth env).2 = (fetchBoth env').2) := by
  refine ⟨rfl, ?_, ?_, ?_, ?_⟩
  · cases obr <;> rfl
  · intro h
    cases obr with
    | error e2 => exact absurd rfl h
    | ok ob =>
      cases pr with
      | error e2 => exact absurd rfl h
      | ok pd => exact ⟨⟨ob, rfl⟩, ⟨pd, rfl⟩⟩
  · intro h
    simp only [fetchBoth, h]
  · intro h1 h2
    simp only [fetchBoth, h1, h2]

/-- Witness for C1 at concrete inputs: with both legs successful the
hypotheses hold and the write can be nonempty, and the independence
conclusions hold between the two example environments. -/
theorem write_requires_both_legs_witness :
    ((∃ ob, (Except.ok obExample : Except String OrderBook) = .ok ob) ∧
      (∃ pd, (Except.ok pdExample : Except String PriceData) = .ok pd)) ∧
    (fetchBoth envExample).1 = (fetchBoth envExample2).1 ∧
    (fetchBoth envExample).2 = (fetchBoth envExample2).2 :=
  ⟨(write_requires_both_legs (.ok obExample) (.ok pdExample) "e" tExample
      1700000000 fsExample envExample envExample2).2.2.1 (by decide),
    (write_requires_both_legs (.ok obExample) (.ok pdExample) "e" tExample
      1700000000 fsExample envExample envExample2).2.2.2.1 rfl,
    (write_requires_both_legs (.ok obExample) (.ok pdExample) "e" tExample
      1700000000 fsExample envExample envExample2).2.2.2.2 rfl rfl⟩

/-- C2: every record written by save_snapshot copies the fetched order
book's lastUpdateId, bids and asks unchanged (same entries, same order)
and carries exactly the fetched price sample (same price string, same
millisecond timestamp). -/
theorem saved_record_matches_inputs (ob : OrderBook) (pd : PriceData)
    (symbol : String) (t : LocalDateTime) (es : Nat) (fs : FsEnv)
    (f : String) (c : CombinedData)
    (h : (f, c) ∈ (save_snapshot ob pd symbol t es fs).2) :
    c.lastUpdateId = ob.lastUpdateId ∧ c.bids = ob.bids ∧
    c.asks = ob.asks ∧ c.current_price = pd := by
  unfold save_snapshot at h
  split at h
  · simp at h
  · split at h
    · simp only [List.mem_singleton, Prod.mk.injEq] at h
      obtain ⟨h1, h2⟩ := h
      subst h2
      exact ⟨rfl, rfl, rfl, rfl⟩
    · simp at h

/-- Witness for C2: the record written for the example inputs matches them
field for field. -/
theorem saved_record_matches_inputs_witness :
    (buildCombinedData obExample pdExample 1700000000 tExample).lastUpdateId =
        obExample.lastUpdateId ∧
    (buildCombinedData obExample pdExample 1700000000 tExample).bids = obExample.bids ∧
    (buildCombinedData obExample pdExample 1700000000 tExample).asks = obExample.asks ∧
    (buildCombinedData obExample pdExample 1700000000 tExample).current_price = pdExample :=
  saved_record_matches_inputs obExample pdExample SYMBOL tExample 1700000000 fsExample
    (snapshotFilename SYMBOL tExample)
    (buildCombinedData obExample pdExample 1700000000 tExample) (by decide)

/-- C9: a successful price fetch carries the process's own wall-clock
reading (epoch milliseconds, sampled after the successful parse) as its
timestamp, whatever the response body contained. -/
theorem price_timestamp_is_local_clock (r : HttpResult) (nowMillis : Nat)
    (pd : PriceData) (h : get_current_price r nowMillis = .ok pd) :
    pd.timestamp = nowMillis := by
  cases r with
  | transportErr m => simp [get_current_price] at h
  | response s body =>
    by_cases hs : statusIsSuccess s = true
    · cases body with
      | error e => simp [get_current_price, hs] at h
      | ok j =>
        cases hp : (j.getField "price").asStr with
        | none => simp [get_current_price, hs, hp] at h
        | some p =>
          simp only [get_current_price, hs, Bool.not_true, Bool.false_eq_true,
            if_false, hp, Except.ok.injEq] at h
          rw [← h]
    · simp [get_current_price, hs] at h

/-- Witness for C9: a body carrying its own numeric time field still
yields the local clock reading 123 as the sample's timestamp. -/
theorem price_timestamp_is_local_clock_witness :
    (PriceData.mk "8.52" 123).timestamp = 123 :=
  price_timestamp_is_local_clock
    (.response 200 (.ok (.obj [("price", .str "8.52"), ("closeTime", .num 999)])))
    123 ⟨"8.52", 123⟩ rfl

/-- C10: with a 2xx status and a JSON object body, the price fetch
succeeds exactly when the price field holds a JSON string (a symbol field
is never consulted: prepending one changes nothing), and a missing or
non-string price — a JSON number, say — yields the extraction failure even
though the body is valid JSON. -/
theorem price_parse_requires_string_price (s : Nat) (hs : statusIsSuccess s = true)
    (fields : List (String × Json)) (now : Nat) :
    (∀ p, ((Json.obj fields).getField "price").asStr = some p →
      get_current_price (.response s (.ok (.obj fields))) now = .ok ⟨p, now⟩) ∧
    (((Json.obj fields).getField "price").asStr = none →
      get_current_price (.response s (.ok (.obj fields))) now =
        .error "Failed to extract price") ∧
    (∀ sym, get_current_price (.response s (.ok (.obj (("symbol", .str sym) :: fields)))) now =
      get_current_price (.response s (.ok (.obj fields))) now) := by
  refine ⟨?_, ?_, ?_⟩
  · intro p hp
    simp [get_current_price, hs, hp]
  · intro hp
    simp [get_current_price, hs, hp]
  · intro sym
    simp [get_current_price, hs, Json.getField, List.find?]

/-- Witness for C10: a bare string price succeeds, and a numeric price
next to a matching symbol fails with the extraction message. -/
theorem price_parse_requires_string_price_witness :
    get_current_price (.response 200 (.ok (.obj [("price", .str "8.52")]))) 5 =
      .ok ⟨"8.52", 5⟩ ∧
    get_current_price
        (.response 200 (.ok (.obj [("symbol", .str "SUIUSDT"), ("price", .num 8)]))) 5 =
      .error "Failed to extract price" :=
  ⟨(price_parse_requires_string_price 200 (by decide) [("price", .str "8.52")] 5).1
      "8.52" rfl,
    (price_parse_requires_string_price 200 (by decide)
      [("symbol", .str "SUIUSDT"), ("price", .num 8)] 5).2.1 rfl⟩

/-- Every event emitted by the result match is a save confirmation or one
of the three error logs. -/
theorem handleResults_events (obr : Except String OrderBook)
    (pr : Except String PriceData) (t : LocalDateTime) (es : Nat) (fs : FsEnv)
    (ev : Event) (hev : ev ∈ handleResults obr pr t es fs) :
    (∃ f, ev = .snapshotSaved f) ∨ (∃ m, ev = .logSaveError m) ∨
    (∃ m, ev = .logOrderbookError m) ∨ (∃ m, ev = .logPriceError m) := by
  cases obr with
  | error e =>
    simp only [handleResults, List.mem_singleton] at hev
    exact Or.inr (Or.inr (Or.inl ⟨e, hev⟩))
  | ok ob =>
    cases pr with
    | error e =>
      simp only [handleResults, List.mem_singleton] at hev
      exact Or.inr (Or.inr (Or.inr ⟨e, hev⟩))
    | ok pd =>
      simp only [handleResults] at hev
      rcases hsave : save_snapshot ob pd SYMBOL t es fs with ⟨res, w⟩
      rw [hsave] at hev
      cases res with
      | ok f =>
        simp only [List.mem_singleton] at hev
        exact Or.inl ⟨f, hev⟩
      | error m =>
        simp only [List.mem_singleton] at hev
        exact Or.inr (Or.inl ⟨m, hev⟩)

/-- Decomposition of membership in one iteration's trace. -/
theorem mem_iterationTrace (env : IterEnv) (ev : Event)
    (h : ev ∈ iterationTrace env) :
    ev = .minIntervalSleep (MIN_INTERVAL_BETWEEN_SNAPSHOTS - env.timeSinceLastSnapshot) ∨
    ev = .recordSnapshotTime ∨ ev = .fetchOrderbookIssued ∨
    ev = .fetchPriceIssued ∨
    ev ∈ handleResults (fetchBoth env).1 (fetchBoth env).2
      env.localNow env.epochSecs env.fs ∨
    ev ∈ endPacingEvents env := by
  by_cases hc : env.timeSinceLastSnapshot < MIN_INTERVAL_BETWEEN_SNAPSHOTS <;>
    simp only [iterationTrace, postFetchEvents, hc, if_true, if_false,
      List.mem_append, List.mem_singleton, List.mem_cons, List.not_mem_nil,
      false_or, or_false] at h <;>
    tauto

/-- C3: the minimum spacing is 100 ms, and at iteration start the pacer
sleeps off exactly the deficit against it when the time since the last
snapshot falls short (and does not wait otherwise), after which the
snapshot time is recorded before the fetches are issued. -/
theorem pacer_start_min_spacing (env : IterEnv) :
    MIN_INTERVAL_BETWEEN_SNAPSHOTS = 1 / 10 ∧
    (env.timeSinceLastSnapshot < MIN_INTERVAL_BETWEEN_SNAPSHOTS →
      iterationTrace env =
        .minIntervalSleep (MIN_INTERVAL_BETWEEN_SNAPSHOTS - env.timeSinceLastSnapshot) ::
        .recordSnapshotTime :: .fetchOrderbookIssued :: .fetchPriceIssued ::
        postFetchEvents env) ∧
    (MIN_INTERVAL_BETWEEN_SNAPSHOTS ≤ env.timeSinceLastSnapshot →
      iterationTrace env =
        .recordSnapshotTime :: .fetchOrderbookIssued :: .fetchPriceIssued ::
        postFetchEvents env) := by
  refine ⟨rfl, ?_, ?_⟩
  · intro h
    simp [iterationTrace, h]
  · intro h
    simp [iterationTrace, not_lt.mpr h]

/-- Witness for C3 at the example environment, whose previous snapshot was
50 ms ago: the iteration starts with a 50 ms sleep, then records the
snapshot time, then issues the fetches. -/
theorem pacer_start_min_spacing_witness :
    iterationTrace envExample =
      .minIntervalSleep (MIN_INTERVAL_BETWEEN_SNAPSHOTS - envExample.timeSinceLastSnapshot) ::
      .recordSnapshotTime :: .fetchOrderbookIssued :: .fetchPriceIssued ::
      postFetchEvents envExample :=
  (pacer_start_min_spacing envExample).2.1
    (by norm_num [envExample, MIN_INTERVAL_BETWEEN_SNAPSHOTS])

/-- C6: the target period is 100 ms, and at iteration end — whatever the
persistence outcome — a shortfall is slept off exactly; an iteration at or
over the period sleeps nothing and reports the overrun instead. -/
theorem pacer_end_target_period (env : IterEnv) :
    UPDATE_INTERVAL = 1 / 10 ∧
    (env.iterationElapsed < UPDATE_INTERVAL →
      (∃ pre, iterationTrace env =
        pre ++ [.endSleep (UPDATE_INTERVAL - env.iterationElapsed)]) ∧
      ∀ q, Event.slowIterationReport q ∉ iterationTrace env) ∧
    (UPDATE_INTERVAL ≤ env.iterationElapsed →
      (∃ pre, iterationTrace env =
        pre ++ [.slowIterationReport env.iterationElapsed]) ∧
      ∀ d, Event.endSleep d ∉ iterationTrace env) := by
  refine ⟨rfl, ?_, ?_⟩
  · intro h
    constructor
    · refine ⟨(if env.timeSinceLastSnapshot < MIN_INTERVAL_BETWEEN_SNAPSHOTS then
        [.minIntervalSleep (MIN_INTERVAL_BETWEEN_SNAPSHOTS - env.timeSinceLastSnapshot)]
        else []) ++ ([.recordSnapshotTime, .fetchOrderbookIssued, .fetchPriceIssued] ++
        handleResults (fetchBoth env).1 (fetchBoth env).2
          env.localNow env.epochSecs env.fs), ?_⟩
      simp [iterationTrace, postFetchEvents, endPacingEvents, h]
    · intro q hq
      rcases mem_iterationTrace env _ hq with h1 | h1 | h1 | h1 | h1 | h1
      · exact Event.noConfusion h1
      · exact Event.noConfusion h1
      · exact Event.noConfusion h1
      · exact Event.noConfusion h1
      · rcases handleResults_events _ _ _ _ _ _ h1 with ⟨f, hf⟩ | ⟨m, hm⟩ | ⟨m, hm⟩ | ⟨m, hm⟩ <;>
          simp_all
      · simp only [endPacingEvents, if_pos h, List.mem_singleton] at h1
        exact Event.noConfusion h1
  · intro h
    constructor
    · refine ⟨(if env.timeSinceLastSnapshot < MIN_INTERVAL_BETWEEN_SNAPSHOTS then
        [.minIntervalSleep (MIN_INTERVAL_BETWEEN_SNAPSHOTS - env.timeSinceLastSnapshot)]
        else []) ++ ([.recordSnapshotTime, .fetchOrderbookIssued, .fetchPriceIssued] ++
        handleResults (fetchBoth env).1 (fetchBoth env).2
          env.localNow env.epochSecs env.fs), ?_⟩
      simp [iterationTrace, postFetchEvents, endPacingEvents, not_lt.mpr h]
    · intro d hd
      rcases mem_iterationTrace env _ hd with h1 | h1 | h1 | h1 | h1 | h1
      · exact Event.noConfusion h1
      · exact Event.noConfusion h1
      · exact Event.noConfusion h1
      · exact Event.noConfusion h1
      · rcases handleResults_events _ _ _ _ _ _ h1 with ⟨f, hf⟩ | ⟨m, hm⟩ | ⟨m, hm⟩ | ⟨m, hm⟩ <;>
          simp_all
      · simp only [endPacingEvents, if_neg (not_lt.mpr h), List.mem_singleton] at h1
        exact Event.noConfusion h1

/-- Witness for C6: the example environment finished its work in 50 ms, so
its trace ends with a 50 ms sleep, and a variant that took 300 ms ends
with the overrun report and sleeps nothing. -/
theorem pacer_end_target_period_witness :
    (∃ pre, iterationTrace envExample =
      pre ++ [.endSleep (UPDATE_INTERVAL - envExample.iterationElapsed)]) ∧
    (∃ pre, iterationTrace envExample2 =
      pre ++ [.slowIterationReport envExample2.iterationElapsed]) :=
  ⟨((pacer_end_target_period envExample).2.1
      (by norm_num [envExample, UPDATE_INTERVAL])).1,
    ((pacer_end_target_period envExample2).2.2
      (by norm_num [envExample2, envExample, UPDATE_INTERVAL])).1⟩

/-- C8: no fetch or persistence failure ends the loop: iteration n of the
loop exists for every n under every environment behaviour, its trace never
contains a process exit, and it always issues both fetch legs again. -/
theorem loop_never_terminates (envs : Nat → IterEnv) (n : Nat) :
    Event.processExit ∉ loopTrace envs n ∧
    Event.fetchOrderbookIssued ∈ loopTrace envs n ∧
    Event.fetchPriceIssued ∈ loopTrace envs n := by
  refine ⟨?_, ?_, ?_⟩
  · intro h
    rcases mem_iterationTrace (envs n) _ h with h1 | h1 | h1 | h1 | h1 | h1
    · exact Event.noConfusion h1
    · exact Event.noConfusion h1
    · exact Event.noConfusion h1
    · exact Event.noConfusion h1
    · rcases handleResults_events _ _ _ _ _ _ h1 with ⟨f, hf⟩ | ⟨m, hm⟩ | ⟨m, hm⟩ | ⟨m, hm⟩ <;>
        simp_all
    · simp only [endPacingEvents] at h1
      split at h1 <;> simp only [List.mem_singleton] at h1 <;> exact Event.noConfusion h1
  · simp [loopTrace, iterationTrace, postFetchEvents]
  · simp [loopTrace, iterationTrace, postFetchEvents]

/-- Witness for C8 at a concrete behaviour: even under an environment
where every iteration fails both legs and the filesystem, iteration 0
exits nothing and issues both fetches. -/
theorem loop_never_terminates_witness :
    Event.processExit ∉
      loopTrace (fun _ => { envExample with
        depthResponse := .transportErr "connection refused",
        priceResponse := .transportErr "connection refused",
        fs := ⟨false, false, false⟩ }) 0 ∧
    Event.fetchOrderbookIssued ∈
      loopTrace (fun _ => { envExample with
        depthResponse := .transportErr "connection refused",
        priceResponse := .transportErr "connection refused",
        fs := ⟨false, false, false⟩ }) 0 :=
  ⟨(loop_never_terminates _ 0).1, (loop_never_terminates _ 0).2.1⟩

/-- C5: a fetch leg succeeds exactly when the transport delivered a 2xx
response whose body parses to the expected shape (an OrderBook for the
depth leg, a string price field for the price leg); any other status or
malformed body fails that leg alone, and a non-2xx failure message carries
the status code. -/
theorem fetch_success_conditions (r : HttpResult) (now : Nat) :
    ((∃ ob, get_orderbook_snapshot r = .ok ob) ↔
      (∃ s j ob, r = .response s (.ok j) ∧ statusIsSuccess s = true ∧
        orderBookFromJson j = some ob)) ∧
    ((∃ pd, get_current_price r now = .ok pd) ↔
      (∃ s j p, r = .response s (.ok j) ∧ statusIsSuccess s = true ∧
        (j.getField "price").asStr = some p)) ∧
    (∀ s b, r = .response s b → statusIsSuccess s = false →
      get_orderbook_snapshot r =
        .error ("API Error getting orderbook: " ++ statusDisplay s) ∧
      get_current_price r now =
        .error ("API Error getting price: " ++ statusDisplay s)) := by
  refine ⟨⟨?_, ?_⟩, ⟨?_, ?_⟩, ?_⟩
  · rintro ⟨ob, h⟩
    cases r with
    | transportErr m => simp [get_orderbook_snapshot] at h
    | response s body =>
      by_cases hs : statusIsSuccess s = true
      · cases body with
        | error e => simp [get_orderbook_snapshot, hs] at h
        | ok j =>
          cases hob : orderBookFromJson j with
          | none => simp [get_orderbook_snapshot, hs, hob] at h
          | some ob2 =>
            refine ⟨s, j, ob, rfl, hs, ?_⟩
            simp only [get_orderbook_snapshot, hs, Bool.not_true, Bool.false_eq_true,
              if_false, hob, Except.ok.injEq] at h
            rw [hob, h]
      · simp [get_orderbook_snapshot, hs] at h
  · rintro ⟨s, j, ob, rfl, hs, hob⟩
    exact ⟨ob, by simp [get_orderbook_snapshot, hs, hob]⟩
  · rintro ⟨pd, h⟩
    cases r with
    | transportErr m => simp [get_current_price] at h
    | response s body =>
      by_cases hs : statusIsSuccess s = true
      · cases body with
        | error e => simp [get_current_price, hs] at h
        | ok j =>
          cases hp : (j.getField "price").asStr with
          | none => simp [get_current_price, hs, hp] at h
          | some p => exact ⟨s, j, p, rfl, hs, hp⟩
      · simp [get_current_price, hs] at h
  · rintro ⟨s, j, p, rfl, hs, hp⟩
    exact ⟨⟨p, now⟩, by simp [get_current_price, hs, hp]⟩
  · rintro s b rfl hs
    constructor
    · simp [get_orderbook_snapshot, hs]
    · simp [get_current_price, hs]

/-- Witness for C5: a 404 response fails both legs with the status code in
the message, and the example 200 responses succeed on both legs. -/
theorem fetch_success_conditions_witness :
    get_orderbook_snapshot (.response 404 (.ok depthBodyExample)) =
      .error ("API Error getting orderbook: " ++ statusDisplay 404) ∧
    get_current_price (.response 404 (.ok priceBodyExample)) 5 =
      .error ("API Error getting price: " ++ statusDisplay 404) ∧
    (∃ ob, get_orderbook_snapshot (.response 200 (.ok depthBodyExample)) = .ok ob) ∧
    (∃ pd, get_current_price (.response 200 (.ok priceBodyExample)) 5 = .ok pd) :=
  ⟨((fetch_success_conditions (.response 404 (.ok depthBodyExample)) 5).2.2
      404 (.ok depthBodyExample) rfl (by decide)).1,
    ((fetch_success_conditions (.response 404 (.ok priceBodyExample)) 5).2.2
      404 (.ok priceBodyExample) rfl (by decide)).2,
    (fetch_success_conditions (.response 200 (.ok depthBodyExample)) 5).1.mpr
      ⟨200, depthBodyExample, obExample, rfl, by decide, by decide⟩,
    (fetch_success_conditions (.response 200 (.ok priceBodyExample)) 5).2.1.mpr
      ⟨200, priceBodyExample, "8.52", rfl, by decide, by decide⟩⟩

/-- Deserializing a serialized depth level recovers it. -/
theorem levelFromJson_levelToJson (l : String × String) :
    levelFromJson (levelToJson l) = some l := by
  cases l
  rfl

/-- Deserializing a serialized level list recovers it, order preserved. -/
theorem levelList_roundtrip (ls : List (String × String)) :
    levelListFromJson (ls.map levelToJson) = some ls := by
  induction ls with
  | nil => rfl
  | cons l t ih => simp [levelListFromJson, levelFromJson_levelToJson, ih]

/-- Round trip for Vec<[String; 2]>. -/
theorem levels_roundtrip (ls : List (String × String)) :
    levelsFromJson (levelsToJson ls) = some ls := by
  simp [levelsToJson, levelsFromJson, levelList_roundtrip]

/-- Looking up the key of the first field of an object yields its value. -/
theorem getField_cons_hit (k : String) (v : Json) (rest : List (String × Json)) :
    (Json.obj ((k, v) :: rest)).getField k = v := by
  simp [Json.getField, List.find?]

/-- Looking up a key skips a first field with a different key. -/
theorem getField_cons_miss (k k2 : String) (v : Json) (rest : List (String × Json))
    (h : (k2 == k) = false) :
    (Json.obj ((k2, v) :: rest)).getField k = (Json.obj rest).getField k := by
  simp [Json.getField, List.find?, h]

/-- In-range u64 values survive the number round trip. -/
theorem asU64_natCast (n : Nat) (h : n < 2 ^ 64) :
    Json.asU64 (.num (n : Int)) = some n := by
  have h1 : (0 : Int) ≤ (n : Int) := Int.natCast_nonneg n
  have h2 : (n : Int) < 2 ^ 64 := by exact_mod_cast h
  simp [Json.asU64, h1, h2]
  omega

/-- C4: serializing a snapshot record to its persisted JSON document and
parsing that document back recovers the record field for field — numeric
fields exact, string fields exact, bid and ask ordering preserved. -/
theorem serialize_roundtrip (c : CombinedData) (h : c.WF) :
    combinedFromJson (combinedToJson c) = some c := by
  obtain ⟨h1, h2, h3⟩ := h
  obtain ⟨cid, cbids, casks, ⟨cpp, cpts⟩, cts, cdt⟩ := c
  simp only [CombinedData.WF] at h1 h2 h3
  simp [combinedToJson, combinedFromJson, priceDataFromJson, Json.getField,
    List.find?, Json.asStr, levels_roundtrip, asU64_natCast _ h1,
    asU64_natCast _ h2, asU64_natCast _ h3]

/-- Witness for C4: the record built from the example inputs survives the
round trip. -/
theorem serialize_roundtrip_witness :
    combinedFromJson
        (combinedToJson (buildCombinedData obExample pdExample 1700000000 tExample)) =
      some (buildCombinedData obExample pdExample 1700000000 tExample) :=
  serialize_roundtrip (buildCombinedData obExample pdExample 1700000000 tExample)
    ⟨by norm_num [buildCombinedData, obExample],
      by norm_num [buildCombinedData, pdExample],
      by norm_num [buildCombinedData]⟩

/-- Splitting an equality of concatenations at equal-length prefixes. -/
theorem append_split {a b c d : List Char} (h : a ++ b = c ++ d)
    (hl : a.length = c.length) : a = c ∧ b = d :=
  List.append_inj h hl

/-- Decimal digit characters identify their digits. -/
theorem digitChar_inj :
    ∀ a < 10, ∀ b < 10, Nat.digitChar a = Nat.digitChar b → a = b := by
  decide

/-- Two-digit zero-padded rendering is injective below 100. -/
theorem pad2_inj (m : Nat) (hm : m < 100) (n : Nat) (hn : n < 100)
    (h : pad2 m = pad2 n) : m = n := by
  simp only [pad2, List.cons.injEq, and_true] at h
  obtain ⟨e1, e2⟩ := h
  have d1 := digitChar_inj _ (Nat.mod_lt _ (by norm_num)) _
    (Nat.mod_lt _ (by norm_num)) e1
  have d2 := digitChar_inj _ (Nat.mod_lt _ (by norm_num)) _
    (Nat.mod_lt _ (by norm_num)) e2
  omega

/-- Four-digit zero-padded rendering is injective below 10000. -/
theorem pad4_inj (m n : Nat) (hm : m < 10000) (hn : n < 10000)
    (h : pad4 m = pad4 n) : m = n := by
  simp only [pad4, List.cons.injEq, and_true] at h
  obtain ⟨e1, e2, e3, e4⟩ := h
  have d1 := digitChar_inj _ (Nat.mod_lt _ (by norm_num)) _
    (Nat.mod_lt _ (by norm_num)) e1
  have d2 := digitChar_inj _ (Nat.mod_lt _ (by norm_num)) _
    (Nat.mod_lt _ (by norm_num)) e2
  have d3 := digitChar_inj _ (Nat.mod_lt _ (by norm_num)) _
    (Nat.mod_lt _ (by norm_num)) e3
  have d4 := digitChar_inj _ (Nat.mod_lt _ (by norm_num)) _
    (Nat.mod_lt _ (by norm_num)) e4
  omega

/-- The %Y%m%d_%H%M%S rendering is injective on valid datetimes. -/
theorem timestampChars_inj (t1 t2 : LocalDateTime)
    (h1 : t1.Valid) (h2 : t2.Valid)
    (h : timestampChars t1 = timestampChars t2) : t1 = t2 := by
  obtain ⟨hy1, hmo1, hmo1b, hd1, hd1b, hh1, hmi1, hs1⟩ := h1
  obtain ⟨hy2, hmo2, hmo2b, hd2, hd2b, hh2, hmi2, hs2⟩ := h2
  simp only [timestampChars, List.append_assoc, List.singleton_append] at h
  obtain ⟨ey, h⟩ := append_split h rfl
  obtain ⟨emo, h⟩ := append_split h rfl
  obtain ⟨ed, h⟩ := append_split h rfl
  obtain ⟨-, h⟩ := List.cons.inj h
  obtain ⟨eh, h⟩ := append_split h rfl
  obtain ⟨emi, es⟩ := append_split h rfl
  have gy := pad4_inj _ _ hy1 hy2 ey
  have gmo := pad2_inj _ (by omega) _ (by omega) emo
  have gd := pad2_inj _ (by omega) _ (by omega) ed
  have gh := pad2_inj _ (by omega) _ (by omega) eh
  have gmi := pad2_inj _ (by omega) _ (by omega) emi
  have gs := pad2_inj _ (by omega) _ (by omega) es
  cases t1
  cases t2
  simp_all

/-- The data of an appended string is the appended data. -/
theorem string_data_append (a b : String) : (a ++ b).data = a.data ++ b.data :=
  rfl

/-- The data of a string built from a character list is that list. -/
theorem string_mk_data (l : List Char) : (String.mk l).data = l :=
  rfl

/-- For a fixed symbol, equal snapshot filenames force equal datetimes. -/
theorem snapshotFilename_inj (symbol : String) (t1 t2 : LocalDateTime)
    (h1 : t1.Valid) (h2 : t2.Valid)
    (h : snapshotFilename symbol t1 = snapshotFilename symbol t2) : t1 = t2 := by
  have hd := congrArg String.data h
  simp only [snapshotFilename, timestamp_str, string_data_append, string_mk_data,
    List.append_assoc] at hd
  obtain ⟨_, hd⟩ := append_split hd rfl
  obtain ⟨_, hd⟩ := append_split hd rfl
  obtain ⟨_, hd⟩ := append_split hd rfl
  obtain ⟨_, hd⟩ := append_split hd rfl
  obtain ⟨ets, _⟩ := append_split hd rfl
  exact timestampChars_inj t1 t2 h1 h2 ets

/-- C7: the persisted path is exactly
OUTPUT_DIR/orderbook_SYMBOL_YYYYMMDD_HHMMSS.json for the local capture
time, the filename is a function of symbol and local time alone, and two
valid capture times more than one second apart yield distinct filenames. -/
theorem snapshot_filename_correct (symbol : String) (t : LocalDateTime) :
    snapshotFilename symbol t =
      OUTPUT_DIR ++ "/orderbook_" ++ symbol ++ "_" ++ timestamp_str t ++ ".json" ∧
    (∀ ob pd es fs f c, (f, c) ∈ (save_snapshot ob pd symbol t es fs).2 →
      f = snapshotFilename symbol t) ∧
    (∀ t1 t2 : LocalDateTime, t1.Valid → t2.Valid →
      t1.toSeconds + 1 < t2.toSeconds →
      snapshotFilename symbol t1 ≠ snapshotFilename symbol t2) := by
  refine ⟨rfl, ?_, ?_⟩
  · intro ob pd es fs f c hmem
    unfold save_snapshot at hmem
    split at hmem
    · simp at hmem
    · split at hmem
      · simp only [List.mem_singleton, Prod.mk.injEq] at hmem
        exact hmem.1
      · simp at hmem
  · intro t1 t2 hv1 hv2 hsec heq
    have : t1 = t2 := snapshotFilename_inj symbol t1 t2 hv1 hv2 heq
    subst this
    omega

/-- Witness for C7: for the example datetime the write lands at the
formatted path, and a capture two seconds later gets a different name. -/
theorem snapshot_filename_correct_witness :
    snapshotFilename SYMBOL tExample =
      OUTPUT_DIR ++ "/orderbook_" ++ SYMBOL ++ "_" ++ timestamp_str tExample ++ ".json" ∧
    snapshotFilename SYMBOL tExample ≠
      snapshotFilename SYMBOL ⟨2024, 1, 2, 3, 4, 7⟩ :=
  ⟨(snapshot_filename_correct SYMBOL tExample).1,
    (snapshot_filename_correct SYMBOL tExample).2.2 tExample ⟨2024, 1, 2, 3, 4, 7⟩
      (by decide) (by decide) (by decide)⟩

end Binance
